import Mathlib

/-!
Shallow embedding of the financial-flag rule engine (src/rules.py and the
orchestrator probe_model_5l_profit in src/app.py).

Modelling decisions, each traceable to the Python source:
* A record is the JSON-shaped mapping of the data model: every field is
  optional (`Option`), absence standing for a missing dictionary key.
  Numeric leaves are rationals (Python arithmetic on the exact decimal
  inputs of interest).
* Python exceptions that can escape the rule functions are made explicit
  in an error type `PyErr`:
  - `enumerate(data.get("financials"))` raises `TypeError` when the
    `"financials"` key is absent (`.get` returns `None`);
  - `data["financials"][i]` raises `IndexError` when `i` is out of range,
    and the `except KeyError:` handlers do NOT catch `IndexError`;
  - `(pbitda + 1) / (interest_expenses + 1)` raises `ZeroDivisionError`
    when `interest_expenses = -1`, also uncaught by `except KeyError:`.
  A `KeyError` is always caught at the lookup where it arises and mapped
  to the 0.0 default, so it never appears in `PyErr`.
-/

deriving instance DecidableEq for Except

/-- Uncaught Python exceptions that the rule functions can raise. -/
inductive PyErr where
  | typeError
  | indexError
  | zeroDivisionError
  deriving DecidableEq, Repr

/-- The "pnl" (profit and loss) section of an entry's "lineItems". -/
structure PnL where
  netRevenue : Option ℚ
  profitBeforeInterestAndTaxAndDepreciationAndAmortization : Option ℚ
  deriving DecidableEq, Repr

/-- The "bs" (balance sheet) section of an entry's "lineItems". -/
structure BS where
  longTermBorrowings : Option ℚ
  shortTermBorrowings : Option ℚ
  interestExpenses : Option ℚ
  deriving DecidableEq, Repr

/-- The "lineItems" mapping of a financial entry. -/
structure LineItems where
  pnl : Option PnL
  bs : Option BS
  deriving DecidableEq, Repr

/-- One element of the "financials" sequence. -/
structure FinancialEntry where
  nature : Option String
  lineItems : Option LineItems
  deriving DecidableEq, Repr

/-- The top-level record handed to the core (already JSON-parsed). -/
structure FinRecord where
  financials : Option (List FinancialEntry)
  deriving DecidableEq, Repr

/-- The integer flag constants of `class FLAGS` in src/rules.py. -/
def FLAGS.GREEN : Nat := 1

def FLAGS.AMBER : Nat := 2

def FLAGS.RED : Nat := 0

def FLAGS.MEDIUM_RISK : Nat := 3

def FLAGS.WHITE : Nat := 4

/-- The `for index, financial in enumerate(...)` loop of
`latest_financial_index`: returns the running index at the first entry whose
`"nature"` is `"STANDALONE"`, and 0 after falling off the end of the list. -/
def latest_financial_index.go : List FinancialEntry → Nat → Nat
  | [], _ => 0
  | f :: rest, idx =>
    if f.nature = some "STANDALONE" then idx else latest_financial_index.go rest (idx + 1)

/-- `latest_financial_index` (src/rules.py). `data.get("financials")` yields
`None` when the key is absent, and `enumerate(None)` raises `TypeError`. -/
def latest_financial_index (data : FinRecord) : Except PyErr Nat :=
  match data.financials with
  | none => Except.error PyErr.typeError
  | some fins => Except.ok (latest_financial_index.go fins 0)

/-- `total_revenue` (src/rules.py): looks up
`data["financials"][financial_index]["lineItems"]["pnl"]["netRevenue"]` in a
`try` block; every `KeyError` is caught and mapped to 0.0, while an
out-of-range index raises `IndexError`, which `except KeyError:` lets through. -/
def total_revenue (data : FinRecord) (financial_index : Nat) : Except PyErr ℚ :=
  match data.financials with
  | none => Except.ok 0
  | some fins =>
    match fins[financial_index]? with
    | none => Except.error PyErr.indexError
    | some entry =>
      match entry.lineItems with
      | none => Except.ok 0
      | some li =>
        match li.pnl with
        | none => Except.ok 0
        | some pnl_section =>
          match pnl_section.netRevenue with
          | none => Except.ok 0
          | some r => Except.ok r

/-- `total_borrowing` (src/rules.py): sums the two borrowing fields of the
`"bs"` section (`.get(..., 0)` defaults), divides by `total_revenue` when the
latter is nonzero, else returns 0.0; `KeyError` is caught, `IndexError` is not. -/
def total_borrowing (data : FinRecord) (financial_index : Nat) : Except PyErr ℚ :=
  match data.financials with
  | none => Except.ok 0
  | some fins =>
    match fins[financial_index]? with
    | none => Except.error PyErr.indexError
    | some entry =>
      match entry.lineItems with
      | none => Except.ok 0
      | some li =>
        match li.bs with
        | none => Except.ok 0
        | some bs_section =>
          let long_term_borrowings := bs_section.longTermBorrowings.getD 0
          let short_term_borrowings := bs_section.shortTermBorrowings.getD 0
          let total_borrowings := long_term_borrowings + short_term_borrowings
          match total_revenue data financial_index with
          | Except.error e => Except.error e
          | Except.ok total_rev =>
            if total_rev ≠ 0 then Except.ok (total_borrowings / total_rev)
            else Except.ok 0

/-- `iscr` (src/rules.py): needs both the `"pnl"` and `"bs"` sections (a
`KeyError` on either is caught, yielding 0.0), defaults the two numeric fields
to 0, then computes `(pbitda + 1) / (interest_expenses + 1)`; a zero
denominator raises `ZeroDivisionError`, which `except KeyError:` lets through,
as does an out-of-range index (`IndexError`). -/
def iscr (data : FinRecord) (financial_index : Nat) : Except PyErr ℚ :=
  match data.financials with
  | none => Except.ok 0
  | some fins =>
    match fins[financial_index]? with
    | none => Except.error PyErr.indexError
    | some entry =>
      match entry.lineItems with
      | none => Except.ok 0
      | some li =>
        match li.pnl with
        | none => Except.ok 0
        | some pnl_section =>
          match li.bs with
          | none => Except.ok 0
          | some bs_section =>
            let pbitda :=
              pnl_section.profitBeforeInterestAndTaxAndDepreciationAndAmortization.getD 0
            let interest_expenses := bs_section.interestExpenses.getD 0
            if interest_expenses + 1 = 0 then Except.error PyErr.zeroDivisionError
            else Except.ok ((pbitda + 1) / (interest_expenses + 1))

/-- `iscr_flag` (src/rules.py): GREEN when the ISCR value is ≥ 2, else RED;
an exception from `iscr` propagates. -/
def iscr_flag (data : FinRecord) (financial_index : Nat) : Except PyErr Nat :=
  match iscr data financial_index with
  | Except.error e => Except.error e
  | Except.ok v => Except.ok (if v ≥ 2 then FLAGS.GREEN else FLAGS.RED)

/-- `total_revenue_5cr_flag` (src/rules.py): GREEN when total revenue is
≥ 50 million, else RED; an exception from `total_revenue` propagates. -/
def total_revenue_5cr_flag (data : FinRecord) (financial_index : Nat) : Except PyErr Nat :=
  match total_revenue data financial_index with
  | Except.error e => Except.error e
  | Except.ok v => Except.ok (if v ≥ 50000000 then FLAGS.GREEN else FLAGS.RED)

/-- `borrowing_to_revenue_flag` (src/rules.py): GREEN when the ratio is
≤ 0.25, else AMBER; an exception from `total_borrowing` propagates. -/
def borrowing_to_revenue_flag (data : FinRecord) (financial_index : Nat) : Except PyErr Nat :=
  match total_borrowing data financial_index with
  | Except.error e => Except.error e
  | Except.ok v => Except.ok (if v ≤ (1 : ℚ) / 4 then FLAGS.GREEN else FLAGS.AMBER)

/-- The inner `"flags"` mapping of the orchestrator's result: exactly the
three keys produced in src/app.py. -/
structure Flags where
  TOTAL_REVENUE_5CR_FLAG : Nat
  BORROWING_TO_REVENUE_FLAG : Nat
  ISCR_FLAG : Nat
  deriving DecidableEq, Repr

/-- The orchestrator's result: a mapping with the single key `"flags"`. -/
structure ProbeResult where
  flags : Flags
  deriving DecidableEq, Repr

/-- `probe_model_5l_profit` (src/app.py): selects the entry index, then
computes the three flags in source order; any uncaught exception propagates. -/
def probe_model_5l_profit (data : FinRecord) : Except PyErr ProbeResult :=
  match latest_financial_index data with
  | Except.error e => Except.error e
  | Except.ok lastest_financial_index_value =>
    match total_revenue_5cr_flag data lastest_financial_index_value with
    | Except.error e => Except.error e
    | Except.ok total_revenue_5cr_flag_value =>
      match borrowing_to_revenue_flag data lastest_financial_index_value with
      | Except.error e => Except.error e
      | Except.ok borrowing_to_revenue_flag_value =>
        match iscr_flag data lastest_financial_index_value with
        | Except.error e => Except.error e
        | Except.ok iscr_flag_value =>
          Except.ok
            (ProbeResult.mk
              (Flags.mk total_revenue_5cr_flag_value
                borrowing_to_revenue_flag_value iscr_flag_value))

/-- Spec-level entry selector: the position of the first entry whose
`"nature"` equals `"STANDALONE"`, if any. -/
def spec_first_standalone_index : List FinancialEntry → Option Nat
  | [] => none
  | e :: rest =>
    if e.nature = some "STANDALONE" then some 0
    else (spec_first_standalone_index rest).map (· + 1)

/-- Side condition read off the `iscr` code: the one division in the core
cannot raise. It fails exactly when both sections are present and the
defaulted `interestExpenses` equals -1 (denominator `interest_expenses + 1`
is then 0). -/
def entry_iscr_safe (e : FinancialEntry) : Bool :=
  match e.lineItems with
  | none => true
  | some li =>
    match li.pnl, li.bs with
    | some _, some bs_section => bs_section.interestExpenses.getD 0 + 1 != 0
    | _, _ => true

/-! Concrete records used by counterexamples and witnesses. -/

/-- The entirely empty mapping: no `"financials"` key at all. -/
def emptyRecord : FinRecord := FinRecord.mk none

/-- A record whose `"financials"` sequence is present but empty. -/
def emptyFinancials : FinRecord := FinRecord.mk (some [])

/-- An entry with `"nature": "CONSOLIDATED"` and no line items. -/
def entryConsolidated : FinancialEntry := FinancialEntry.mk (some "CONSOLIDATED") none

/-- An entry with `"nature": "STANDALONE"` and no line items. -/
def entryStandalone : FinancialEntry := FinancialEntry.mk (some "STANDALONE") none

/-- A fully populated standalone entry: netRevenue 100, pbitda 3,
longTermBorrowings 10, shortTermBorrowings 15, interestExpenses 1. -/
def sampleEntry : FinancialEntry :=
  FinancialEntry.mk (some "STANDALONE")
    (some (LineItems.mk (some (PnL.mk (some 100) (some 3)))
      (some (BS.mk (some 10) (some 15) (some 1)))))

/-- A record holding just `sampleEntry`. -/
def sampleRecord : FinRecord := FinRecord.mk (some [sampleEntry])

/-- A record whose selected entry has netRevenue exactly 50,000,000. -/
def record50M : FinRecord :=
  FinRecord.mk (some [FinancialEntry.mk (some "STANDALONE")
    (some (LineItems.mk (some (PnL.mk (some 50000000) none)) none))])

/-- A record whose selected entry has netRevenue 49,999,999.99. -/
def recordJustUnder50M : FinRecord :=
  FinRecord.mk (some [FinancialEntry.mk (some "STANDALONE")
    (some (LineItems.mk (some (PnL.mk (some (4999999999 / 100)) none)) none))])

/-- A record whose selected entry has pbitda 0 and interestExpenses 1,
so its ISCR value is (0+1)/(1+1) = 0.5. -/
def recordLowIscr : FinRecord :=
  FinRecord.mk (some [FinancialEntry.mk (some "STANDALONE")
    (some (LineItems.mk (some (PnL.mk none (some 0)))
      (some (BS.mk none none (some 1)))))])

/-- A record with borrowings 10 + 15 against netRevenue 99, so its
borrowing-to-revenue value is 25/99 > 0.25. -/
def recordHighBorrowing : FinRecord :=
  FinRecord.mk (some [FinancialEntry.mk (some "STANDALONE")
    (some (LineItems.mk (some (PnL.mk (some 99) none))
      (some (BS.mk (some 10) (some 15) none))))])

/-- A record whose selected entry has both sections present and
`interestExpenses = -1`, so the ISCR denominator is 0. -/
def recordInterestMinusOne : FinRecord :=
  FinRecord.mk (some [FinancialEntry.mk (some "STANDALONE")
    (some (LineItems.mk (some (PnL.mk none (some 5)))
      (some (BS.mk none none (some (-1))))))])

/-- A record with borrowings present but no `"pnl"` section, so its total
revenue is 0 and the borrowing ratio takes the divide-by-zero guard branch. -/
def recordZeroRevenue : FinRecord :=
  FinRecord.mk (some [FinancialEntry.mk (some "STANDALONE")
    (some (LineItems.mk none (some (BS.mk (some 10) (some 15) none))))])

/-- The spec's selector example: natures CONSOLIDATED, STANDALONE, STANDALONE. -/
def consolidatedFirstRecord : FinRecord :=
  FinRecord.mk (some [entryConsolidated, entryStandalone, entryStandalone])

/-! ### Helper lemmas -/

/-- `total_revenue` when the `"financials"` key is absent: `KeyError`, caught. -/
theorem total_revenue_of_no_financials (data : FinRecord) (i : Nat)
    (hf : data.financials = none) : total_revenue data i = Except.ok 0 := by
  unfold total_revenue
  rw [hf]

/-- `total_revenue` on an out-of-range index: uncaught `IndexError`. -/
theorem total_revenue_of_no_entry (data : FinRecord) (fins : List FinancialEntry) (i : Nat)
    (hf : data.financials = some fins) (he : fins[i]? = none) :
    total_revenue data i = Except.error PyErr.indexError := by
  unfold total_revenue
  rw [hf]
  dsimp only
  rw [he]

/-- `total_revenue` on an in-range entry: the nested `try` lookup equals a
single `Option.bind` chain with the 0 default. -/
theorem total_revenue_of_entry (data : FinRecord) (fins : List FinancialEntry) (i : Nat)
    (e : FinancialEntry) (hf : data.financials = some fins) (he : fins[i]? = some e) :
    total_revenue data i =
      Except.ok (((e.lineItems.bind LineItems.pnl).bind PnL.netRevenue).getD 0) := by
  unfold total_revenue
  rw [hf]
  dsimp only
  rw [he]
  dsimp only
  cases e.lineItems with
  | none => rfl
  | some li =>
    dsimp only [Option.bind]
    cases li.pnl with
    | none => rfl
    | some pnl_section =>
      dsimp only [Option.bind]
      cases pnl_section.netRevenue with
      | none => rfl
      | some r => rfl

/-- `total_borrowing` when the `"financials"` key is absent. -/
theorem total_borrowing_of_no_financials (data : FinRecord) (i : Nat)
    (hf : data.financials = none) : total_borrowing data i = Except.ok 0 := by
  unfold total_borrowing
  rw [hf]

/-- `total_borrowing` on an out-of-range index: uncaught `IndexError`. -/
theorem total_borrowing_of_no_entry (data : FinRecord) (fins : List FinancialEntry) (i : Nat)
    (hf : data.financials = some fins) (he : fins[i]? = none) :
    total_borrowing data i = Except.error PyErr.indexError := by
  unfold total_borrowing
  rw [hf]
  dsimp only
  rw [he]

/-- `total_borrowing` on an in-range entry whose `"bs"` section is missing:
`KeyError`, caught. -/
theorem total_borrowing_of_no_bs (data : FinRecord) (fins : List FinancialEntry) (i : Nat)
    (e : FinancialEntry) (hf : data.financials = some fins) (he : fins[i]? = some e)
    (hb : e.lineItems.bind LineItems.bs = none) :
    total_borrowing data i = Except.ok 0 := by
  unfold total_borrowing
  rw [hf]
  dsimp only
  rw [he]
  dsimp only
  cases hli : e.lineItems with
  | none => rfl
  | some li =>
    rw [hli] at hb
    simp only [Option.bind] at hb
    simp only [hb]

/-- `total_borrowing` on an in-range entry with a `"bs"` section: the two
defaulted borrowings summed, divided by the entry's revenue unless that
revenue is zero. -/
theorem total_borrowing_of_bs (data : FinRecord) (fins : List FinancialEntry) (i : Nat)
    (e : FinancialEntry) (bs_section : BS) (v : ℚ)
    (hf : data.financials = some fins) (he : fins[i]? = some e)
    (hb : e.lineItems.bind LineItems.bs = some bs_section)
    (hv : total_revenue data i = Except.ok v) :
    total_borrowing data i =
      if v = 0 then Except.ok 0
      else
        Except.ok ((bs_section.longTermBorrowings.getD 0
          + bs_section.shortTermBorrowings.getD 0) / v) := by
  unfold total_borrowing
  rw [hf]
  dsimp only
  rw [he]
  dsimp only
  cases hli : e.lineItems with
  | none => rw [hli] at hb; exact absurd hb (by simp [Option.bind])
  | some li =>
    rw [hli] at hb
    simp only [Option.bind] at hb
    simp only [hb, hv]
    by_cases hv0 : v = 0
    · simp [hv0]
    · simp [hv0]

/-- `iscr` when the `"financials"` key is absent. -/
theorem iscr_of_no_financials (data : FinRecord) (i : Nat)
    (hf : data.financials = none) : iscr data i = Except.ok 0 := by
  unfold iscr
  rw [hf]

/-- `iscr` on an out-of-range index: uncaught `IndexError`. -/
theorem iscr_of_no_entry (data : FinRecord) (fins : List FinancialEntry) (i : Nat)
    (hf : data.financials = some fins) (he : fins[i]? = none) :
    iscr data i = Except.error PyErr.indexError := by
  unfold iscr
  rw [hf]
  dsimp only
  rw [he]

/-- `iscr` on an in-range entry with one of the two sections missing:
`KeyError`, caught. -/
theorem iscr_of_missing_section (data : FinRecord) (fins : List FinancialEntry) (i : Nat)
    (e : FinancialEntry) (hf : data.financials = some fins) (he : fins[i]? = some e)
    (hmiss : e.lineItems.bind LineItems.pnl = none ∨ e.lineItems.bind LineItems.bs = none) :
    iscr data i = Except.ok 0 := by
  unfold iscr
  rw [hf]
  dsimp only
  rw [he]
  dsimp only
  cases hli : e.lineItems with
  | none => rfl
  | some li =>
    rw [hli] at hmiss
    simp only [Option.bind] at hmiss
    rcases hmiss with hp | hb
    · simp only [hp]
    · cases hp2 : li.pnl with
      | none => simp only [hp2]
      | some pnl_section => simp only [hp2, hb]

/-- `iscr` on an in-range entry with both sections present: the
`(pbitda + 1) / (interestExpenses + 1)` formula, raising
`ZeroDivisionError` when the denominator is 0. -/
theorem iscr_of_both_sections (data : FinRecord) (fins : List FinancialEntry) (i : Nat)
    (e : FinancialEntry) (pnl_section : PnL) (bs_section : BS)
    (hf : data.financials = some fins) (he : fins[i]? = some e)
    (hp : e.lineItems.bind LineItems.pnl = some pnl_section)
    (hb : e.lineItems.bind LineItems.bs = some bs_section) :
    iscr data i =
      if bs_section.interestExpenses.getD 0 + 1 = 0 then Except.error PyErr.zeroDivisionError
      else
        Except.ok
          ((pnl_section.profitBeforeInterestAndTaxAndDepreciationAndAmortization.getD 0 + 1)
            / (bs_section.interestExpenses.getD 0 + 1)) := by
  unfold iscr
  rw [hf]
  dsimp only
  rw [he]
  dsimp only
  cases hli : e.lineItems with
  | none => rw [hli] at hp; exact absurd hp (by simp [Option.bind])
  | some li =>
    rw [hli] at hp hb
    simp only [Option.bind] at hp hb
    simp only [hp, hb]

/-- The selector loop returns `start + j` when the first standalone entry sits
at relative position `j`, and 0 when there is none. -/
theorem latest_financial_index_go_eq (fins : List FinancialEntry) (i : Nat) :
    latest_financial_index.go fins i =
      match spec_first_standalone_index fins with
      | none => 0
      | some j => i + j := by
  induction fins generalizing i with
  | nil => rfl
  | cons e rest ih =>
    by_cases h : e.nature = some "STANDALONE"
    · simp [latest_financial_index.go, spec_first_standalone_index, h]
    · rw [latest_financial_index.go, spec_first_standalone_index, if_neg h, if_neg h, ih]
      cases spec_first_standalone_index rest with
      | none => rfl
      | some j =>
        show i + 1 + j = i + (j + 1)
        omega

/-- A position found by the spec-level selector is in range. -/
theorem spec_first_standalone_index_lt (fins : List FinancialEntry) (j : Nat)
    (h : spec_first_standalone_index fins = some j) : j < fins.length := by
  induction fins generalizing j with
  | nil => simp [spec_first_standalone_index] at h
  | cons e rest ih =>
    by_cases he : e.nature = some "STANDALONE"
    · rw [spec_first_standalone_index, if_pos he] at h
      simp only [Option.some_inj] at h
      simp [← h]
    · rw [spec_first_standalone_index, if_neg he] at h
      rw [Option.map_eq_some'] at h
      obtain ⟨j', hj', hjj⟩ := h
      have := ih j' hj'
      simp only [List.length_cons]
      omega

/-- On a nonempty financials list the selected index is always in range. -/
theorem selected_index_lt_length (fins : List FinancialEntry) (hne : fins ≠ []) :
    latest_financial_index.go fins 0 < fins.length := by
  rw [latest_financial_index_go_eq]
  cases h : spec_first_standalone_index fins with
  | none => simpa using List.length_pos.mpr hne
  | some j => simpa using spec_first_standalone_index_lt fins j h

/-- The revenue classifier, given the value the revenue accessor returned. -/
theorem total_revenue_5cr_flag_of_ok (data : FinRecord) (i : Nat) (v : ℚ)
    (h : total_revenue data i = Except.ok v) :
    total_revenue_5cr_flag data i =
      Except.ok (if v ≥ 50000000 then FLAGS.GREEN else FLAGS.RED) := by
  unfold total_revenue_5cr_flag
  simp only [h]

/-- The ISCR classifier, given the value `iscr` returned. -/
theorem iscr_flag_of_ok (data : FinRecord) (i : Nat) (v : ℚ)
    (h : iscr data i = Except.ok v) :
    iscr_flag data i = Except.ok (if v ≥ 2 then FLAGS.GREEN else FLAGS.RED) := by
  unfold iscr_flag
  simp only [h]

/-- The borrowing classifier, given the value `total_borrowing` returned. -/
theorem borrowing_to_revenue_flag_of_ok (data : FinRecord) (i : Nat) (v : ℚ)
    (h : total_borrowing data i = Except.ok v) :
    borrowing_to_revenue_flag data i =
      Except.ok (if v ≤ (1 : ℚ) / 4 then FLAGS.GREEN else FLAGS.AMBER) := by
  unfold borrowing_to_revenue_flag
  simp only [h]

/-- The revenue classifier only ever yields RED or GREEN. -/
theorem total_revenue_5cr_flag_vals (data : FinRecord) (i : Nat) (n : Nat)
    (h : total_revenue_5cr_flag data i = Except.ok n) :
    n = FLAGS.RED ∨ n = FLAGS.GREEN := by
  unfold total_revenue_5cr_flag at h
  cases hv : total_revenue data i with
  | error e => rw [hv] at h; exact absurd h (by simp)
  | ok v =>
    simp only [hv, Except.ok.injEq] at h
    split at h
    · exact Or.inr h.symm
    · exact Or.inl h.symm

/-- The ISCR classifier only ever yields RED or GREEN. -/
theorem iscr_flag_vals (data : FinRecord) (i : Nat) (n : Nat)
    (h : iscr_flag data i = Except.ok n) :
    n = FLAGS.RED ∨ n = FLAGS.GREEN := by
  unfold iscr_flag at h
  cases hv : iscr data i with
  | error e => rw [hv] at h; exact absurd h (by simp)
  | ok v =>
    simp only [hv, Except.ok.injEq] at h
    split at h
    · exact Or.inr h.symm
    · exact Or.inl h.symm

/-- The borrowing classifier only ever yields GREEN or AMBER. -/
theorem borrowing_to_revenue_flag_vals (data : FinRecord) (i : Nat) (n : Nat)
    (h : borrowing_to_revenue_flag data i = Except.ok n) :
    n = FLAGS.GREEN ∨ n = FLAGS.AMBER := by
  unfold borrowing_to_revenue_flag at h
  cases hv : total_borrowing data i with
  | error e => rw [hv] at h; exact absurd h (by simp)
  | ok v =>
    simp only [hv, Except.ok.injEq] at h
    split at h
    · exact Or.inl h.symm
    · exact Or.inr h.symm

/-- Assembling an orchestrator run from the four successful calls. -/
theorem probe_model_5l_profit_ok_of (data : FinRecord) (idx trf brf irf : Nat)
    (h1 : latest_financial_index data = Except.ok idx)
    (h2 : total_revenue_5cr_flag data idx = Except.ok trf)
    (h3 : borrowing_to_revenue_flag data idx = Except.ok brf)
    (h4 : iscr_flag data idx = Except.ok irf) :
    probe_model_5l_profit data = Except.ok (ProbeResult.mk (Flags.mk trf brf irf)) := by
  unfold probe_model_5l_profit
  simp only [h1, h2, h3, h4]

/-- Decomposing a successful orchestrator run into its four calls. -/
theorem probe_model_5l_profit_ok_inv (data : FinRecord) (r : ProbeResult)
    (h : probe_model_5l_profit data = Except.ok r) :
    ∃ idx, latest_financial_index data = Except.ok idx
      ∧ total_revenue_5cr_flag data idx = Except.ok r.flags.TOTAL_REVENUE_5CR_FLAG
      ∧ borrowing_to_revenue_flag data idx = Except.ok r.flags.BORROWING_TO_REVENUE_FLAG
      ∧ iscr_flag data idx = Except.ok r.flags.ISCR_FLAG := by
  unfold probe_model_5l_profit at h
  cases h1 : latest_financial_index data with
  | error e => rw [h1] at h; exact absurd h (by simp)
  | ok idx =>
    simp only [h1] at h
    cases h2 : total_revenue_5cr_flag data idx with
    | error e => rw [h2] at h; exact absurd h (by simp)
    | ok trf =>
      simp only [h2] at h
      cases h3 : borrowing_to_revenue_flag data idx with
      | error e => rw [h3] at h; exact absurd h (by simp)
      | ok brf =>
        simp only [h3] at h
        cases h4 : iscr_flag data idx with
        | error e => rw [h4] at h; exact absurd h (by simp)
        | ok irf =>
          simp only [h4, Except.ok.injEq] at h
          subst h
          exact ⟨idx, rfl, h2, h3, h4⟩

/-- `total_borrowing` cannot raise on an in-range index: the division is
guarded by the `total_rev != 0` check. -/
theorem total_borrowing_ok_of_inrange (data : FinRecord) (fins : List FinancialEntry)
    (i : Nat) (hf : data.financials = some fins) (hi : i < fins.length) :
    ∃ v, total_borrowing data i = Except.ok v := by
  have he : fins[i]? = some fins[i] := List.getElem?_eq_getElem hi
  cases hb : fins[i].lineItems.bind LineItems.bs with
  | none => exact ⟨0, total_borrowing_of_no_bs data fins i fins[i] hf he hb⟩
  | some bs_section =>
    have hv := total_revenue_of_entry data fins i fins[i] hf he
    have h := total_borrowing_of_bs data fins i fins[i] bs_section _ hf he hb hv
    by_cases h0 : ((fins[i].lineItems.bind LineItems.pnl).bind PnL.netRevenue).getD 0 = 0
    · exact ⟨0, by rw [h, if_pos h0]⟩
    · exact ⟨_, by rw [h, if_neg h0]⟩

/-- With the side condition of `entry_iscr_safe`, `iscr` cannot raise on an
in-range index. -/
theorem iscr_ok_of_safe (data : FinRecord) (fins : List FinancialEntry) (i : Nat)
    (hf : data.financials = some fins) (hi : i < fins.length)
    (hsafe : entry_iscr_safe fins[i] = true) :
    ∃ v, iscr data i = Except.ok v := by
  have he : fins[i]? = some fins[i] := List.getElem?_eq_getElem hi
  cases hp : fins[i].lineItems.bind LineItems.pnl with
  | none => exact ⟨0, iscr_of_missing_section data fins i fins[i] hf he (Or.inl hp)⟩
  | some pnl_section =>
    cases hb : fins[i].lineItems.bind LineItems.bs with
    | none => exact ⟨0, iscr_of_missing_section data fins i fins[i] hf he (Or.inr hb)⟩
    | some bs_section =>
      have h := iscr_of_both_sections data fins i fins[i] pnl_section bs_section hf he hp hb
      have hden : bs_section.interestExpenses.getD 0 + 1 ≠ 0 := by
        unfold entry_iscr_safe at hsafe
        cases hli : fins[i].lineItems with
        | none => rw [hli] at hp; exact absurd hp (by simp [Option.bind])
        | some li =>
          rw [hli] at hp hb
          simp only [Option.bind] at hp hb
          simp only [hli, hp, hb] at hsafe
          simpa using hsafe
      exact ⟨_, by rw [h, if_neg hden]⟩

/-! ### Claims -/

/-- Claim C1, counterexample: the entirely empty mapping does not yield a
full set of default flags — `latest_financial_index` raises `TypeError`
(`enumerate(None)`), so `probe_model_5l_profit` fails. -/
theorem probe_model_5l_profit_empty_mapping_counterexample :
    probe_model_5l_profit emptyRecord = Except.error PyErr.typeError := by
  with_unfolding_all rfl

/-- Claim C1, amended: evaluation completes with a full flag set for every
record whose `"financials"` sequence is present and nonempty, provided no
entry with both `"pnl"` and `"bs"` sections has `interestExpenses = -1`
(which would raise `ZeroDivisionError`); an absent `"financials"` key
raises `TypeError` instead of returning defaults. -/
theorem probe_model_5l_profit_total_on_present_financials (data : FinRecord)
    (fins : List FinancialEntry) (hf : data.financials = some fins) (hne : fins ≠ [])
    (hsafe : ∀ e ∈ fins, entry_iscr_safe e = true) :
    ∃ r, probe_model_5l_profit data = Except.ok r := by
  have hlt := selected_index_lt_length fins hne
  have h1 : latest_financial_index data =
      Except.ok (latest_financial_index.go fins 0) := by
    unfold latest_financial_index
    rw [hf]
  have he : fins[latest_financial_index.go fins 0]? =
      some fins[latest_financial_index.go fins 0] := List.getElem?_eq_getElem hlt
  have hrev := total_revenue_of_entry data fins _ _ hf he
  have hflag1 := total_revenue_5cr_flag_of_ok data _ _ hrev
  obtain ⟨v2, hbor⟩ := total_borrowing_ok_of_inrange data fins _ hf hlt
  have hflag2 := borrowing_to_revenue_flag_of_ok data _ v2 hbor
  obtain ⟨v3, hic⟩ := iscr_ok_of_safe data fins _ hf hlt
    (hsafe _ (List.getElem_mem hlt))
  have hflag3 := iscr_flag_of_ok data _ v3 hic
  exact ⟨_, probe_model_5l_profit_ok_of data _ _ _ _ h1 hflag1 hflag2 hflag3⟩

/-- Claim C1, witness: a one-entry record evaluates to a full flag set. -/
theorem probe_model_5l_profit_total_on_present_financials_witness :
    ∃ r, probe_model_5l_profit sampleRecord = Except.ok r :=
  probe_model_5l_profit_total_on_present_financials sampleRecord [sampleEntry] rfl
    (by simp)
    (by
      intro e he
      rw [List.mem_singleton] at he
      subst he
      with_unfolding_all rfl)

/-- Claim C2, counterexample: with `"financials"` present but empty, entry 0
is missing, yet `total_revenue` raises `IndexError` (uncaught by the
`except KeyError:` handler) instead of returning the 0.0 default. -/
theorem total_revenue_missing_entry_counterexample :
    total_revenue emptyFinancials 0 = Except.error PyErr.indexError
      ∧ total_revenue emptyFinancials 0 ≠ Except.ok 0 := by
  exact ⟨rfl, by decide⟩

/-- Claim C2, amended: `total_revenue` returns the selected entry's
`pnl.netRevenue`, with a missing `"financials"` key, `lineItems`, `pnl` or
`netRevenue` field all collapsing to the 0.0 default; a missing entry
(out-of-range index), however, raises `IndexError` rather than returning 0.0. -/
theorem total_revenue_lookup_defaults (data : FinRecord) (i : Nat) :
    (data.financials = none → total_revenue data i = Except.ok 0)
    ∧ (∀ fins e, data.financials = some fins → fins[i]? = some e →
        total_revenue data i =
          Except.ok (((e.lineItems.bind LineItems.pnl).bind PnL.netRevenue).getD 0))
    ∧ (∀ fins, data.financials = some fins → fins[i]? = none →
        total_revenue data i = Except.error PyErr.indexError) := by
  refine ⟨fun h => total_revenue_of_no_financials data i h, ?_, ?_⟩
  · intro fins e hf he
    exact total_revenue_of_entry data fins i e hf he
  · intro fins hf he
    exact total_revenue_of_no_entry data fins i hf he

/-- Claim C2, witness: the populated entry yields its netRevenue, and the
record with no `"financials"` key yields the 0.0 default. -/
theorem total_revenue_lookup_defaults_witness :
    total_revenue sampleRecord 0 = Except.ok 100
      ∧ total_revenue emptyRecord 0 = Except.ok 0 := by
  constructor
  · have h := (total_revenue_lookup_defaults sampleRecord 0).2.1 [sampleEntry]
      sampleEntry rfl rfl
    exact h.trans (by rfl)
  · exact (total_revenue_lookup_defaults emptyRecord 0).1 rfl

/-- Claim C3, counterexample: the orchestrator does not return a flag mapping
for all records — on a record with an empty `"financials"` list it raises
(`IndexError` out of `total_revenue`), returning nothing. -/
theorem probe_model_5l_profit_flag_range_counterexample :
    probe_model_5l_profit emptyFinancials = Except.error PyErr.indexError := by
  with_unfolding_all rfl

/-- Claim C3, amended: whenever evaluation completes, the result is a mapping
with the single key `"flags"` holding exactly the three flag keys, the
revenue and ISCR flags in {RED, GREEN} and the borrowing flag in
{GREEN, AMBER} — so every value lies in {0, 1, 2} and MEDIUM_RISK (3) and
WHITE (4) never appear. -/
theorem probe_model_5l_profit_flag_range (data : FinRecord) (r : ProbeResult)
    (h : probe_model_5l_profit data = Except.ok r) :
    (r.flags.TOTAL_REVENUE_5CR_FLAG = FLAGS.RED
        ∨ r.flags.TOTAL_REVENUE_5CR_FLAG = FLAGS.GREEN)
    ∧ (r.flags.BORROWING_TO_REVENUE_FLAG = FLAGS.GREEN
        ∨ r.flags.BORROWING_TO_REVENUE_FLAG = FLAGS.AMBER)
    ∧ (r.flags.ISCR_FLAG = FLAGS.RED ∨ r.flags.ISCR_FLAG = FLAGS.GREEN) := by
  obtain ⟨idx, h1, h2, h3, h4⟩ := probe_model_5l_profit_ok_inv data r h
  exact ⟨total_revenue_5cr_flag_vals data idx _ h2,
    borrowing_to_revenue_flag_vals data idx _ h3, iscr_flag_vals data idx _ h4⟩

/-- Claim C3, witness: the sample record completes with flags (0, 1, 1),
all within the allowed sets. -/
theorem probe_model_5l_profit_flag_range_witness :
    ((ProbeResult.mk (Flags.mk 0 1 1)).flags.TOTAL_REVENUE_5CR_FLAG = FLAGS.RED
        ∨ (ProbeResult.mk (Flags.mk 0 1 1)).flags.TOTAL_REVENUE_5CR_FLAG = FLAGS.GREEN)
    ∧ ((ProbeResult.mk (Flags.mk 0 1 1)).flags.BORROWING_TO_REVENUE_FLAG = FLAGS.GREEN
        ∨ (ProbeResult.mk (Flags.mk 0 1 1)).flags.BORROWING_TO_REVENUE_FLAG = FLAGS.AMBER)
    ∧ ((ProbeResult.mk (Flags.mk 0 1 1)).flags.ISCR_FLAG = FLAGS.RED
        ∨ (ProbeResult.mk (Flags.mk 0 1 1)).flags.ISCR_FLAG = FLAGS.GREEN) :=
  probe_model_5l_profit_flag_range sampleRecord (ProbeResult.mk (Flags.mk 0 1 1))
    (by with_unfolding_all rfl)

/-- Claim C4: when the `"financials"` sequence is present,
`latest_financial_index` returns the index of the first entry whose
`"nature"` equals `"STANDALONE"`, and 0 when no entry matches (including the
empty sequence), raising no error in those cases. -/
theorem latest_financial_index_first_standalone (data : FinRecord)
    (fins : List FinancialEntry) (hf : data.financials = some fins) :
    latest_financial_index data =
      Except.ok ((spec_first_standalone_index fins).getD 0) := by
  unfold latest_financial_index
  rw [hf]
  dsimp only
  rw [latest_financial_index_go_eq]
  cases spec_first_standalone_index fins with
  | none => rfl
  | some j =>
    show Except.ok (0 + j) = Except.ok j
    rw [Nat.zero_add]

/-- Claim C4, witness: natures CONSOLIDATED, STANDALONE, STANDALONE select
index 1 (first match wins), and the empty sequence selects 0. -/
theorem latest_financial_index_first_standalone_witness :
    latest_financial_index consolidatedFirstRecord = Except.ok 1
      ∧ latest_financial_index emptyFinancials = Except.ok 0 := by
  constructor
  · have h := latest_financial_index_first_standalone consolidatedFirstRecord
      [entryConsolidated, entryStandalone, entryStandalone] rfl
    exact h.trans (by with_unfolding_all rfl)
  · have h := latest_financial_index_first_standalone emptyFinancials [] rfl
    exact h.trans (by rfl)

/-- Claim C5, counterexample: on a record with an empty `"financials"` list
and index 0, `iscr` raises `IndexError` instead of returning a value (neither
the 0.0 missing-section default nor the (0+1)/(0+1) formula value). -/
theorem iscr_missing_entry_counterexample :
    iscr emptyFinancials 0 = Except.error PyErr.indexError
      ∧ iscr emptyFinancials 0 ≠ Except.ok 0
      ∧ iscr emptyFinancials 0 ≠ Except.ok 1 := by
  exact ⟨rfl, by decide, by decide⟩

/-- Claim C5, amended: on an in-range entry with both sections present,
`iscr` returns `(pbitda + 1) / (interestExpenses + 1)` with the two fields
defaulted to 0 — unless the defaulted `interestExpenses` is -1, in which
case it raises `ZeroDivisionError`; a missing `pnl` or `bs` section (or
`lineItems`) yields 0.0; an out-of-range index raises `IndexError`. -/
theorem iscr_formula (data : FinRecord) (i : Nat) (fins : List FinancialEntry)
    (hf : data.financials = some fins) :
    (∀ e, fins[i]? = some e →
      ((∀ pnl_section bs_section,
          e.lineItems.bind LineItems.pnl = some pnl_section →
          e.lineItems.bind LineItems.bs = some bs_section →
          iscr data i =
            if bs_section.interestExpenses.getD 0 + 1 = 0 then
              Except.error PyErr.zeroDivisionError
            else
              Except.ok
                ((pnl_section.profitBeforeInterestAndTaxAndDepreciationAndAmortization.getD 0
                    + 1) / (bs_section.interestExpenses.getD 0 + 1)))
        ∧ ((e.lineItems.bind LineItems.pnl = none ∨ e.lineItems.bind LineItems.bs = none) →
            iscr data i = Except.ok 0)))
    ∧ (fins[i]? = none → iscr data i = Except.error PyErr.indexError) := by
  refine ⟨?_, fun he => iscr_of_no_entry data fins i hf he⟩
  intro e he
  exact ⟨fun p b hp hb => iscr_of_both_sections data fins i e p b hf he hp hb,
    fun hmiss => iscr_of_missing_section data fins i e hf he hmiss⟩

/-- Claim C5, witness: the sample entry (pbitda 3, interestExpenses 1)
yields ISCR (3+1)/(1+1) = 2. -/
theorem iscr_formula_witness : iscr sampleRecord 0 = Except.ok 2 := by
  have h := ((iscr_formula sampleRecord 0 [sampleEntry] rfl).1 sampleEntry rfl).1
    (PnL.mk (some 100) (some 3)) (BS.mk (some 10) (some 15) (some 1)) rfl rfl
  exact h.trans (by with_unfolding_all rfl)

/-- Claim C6, counterexample: on a record with an empty `"financials"` list
and index 0, `total_borrowing` raises `IndexError` instead of returning a
value. -/
theorem total_borrowing_missing_entry_counterexample :
    total_borrowing emptyFinancials 0 = Except.error PyErr.indexError
      ∧ total_borrowing emptyFinancials 0 ≠ Except.ok 0 := by
  exact ⟨rfl, by decide⟩

/-- Claim C6, amended: on an in-range entry with a `"bs"` section,
`total_borrowing` returns the sum of the two defaulted borrowing fields
divided by the entry's `total_revenue`, or 0.0 when that revenue is exactly
0; a missing `"bs"` section yields 0.0; an out-of-range index raises
`IndexError`. -/
theorem total_borrowing_formula (data : FinRecord) (i : Nat) (fins : List FinancialEntry)
    (hf : data.financials = some fins) :
    (∀ e, fins[i]? = some e →
      ((∀ bs_section v, e.lineItems.bind LineItems.bs = some bs_section →
          total_revenue data i = Except.ok v →
          total_borrowing data i =
            if v = 0 then Except.ok 0
            else
              Except.ok ((bs_section.longTermBorrowings.getD 0
                + bs_section.shortTermBorrowings.getD 0) / v))
        ∧ (e.lineItems.bind LineItems.bs = none → total_borrowing data i = Except.ok 0)))
    ∧ (fins[i]? = none → total_borrowing data i = Except.error PyErr.indexError) := by
  refine ⟨?_, fun he => total_borrowing_of_no_entry data fins i hf he⟩
  intro e he
  exact ⟨fun b v hb hv => total_borrowing_of_bs data fins i e b v hf he hb hv,
    fun hb => total_borrowing_of_no_bs data fins i e hf he hb⟩

/-- Claim C6, witness: borrowings 10 + 15 against revenue 100 give ratio
1/4, and a record with bs present but revenue 0 takes the guard branch. -/
theorem total_borrowing_formula_witness :
    total_borrowing sampleRecord 0 = Except.ok (1 / 4)
      ∧ total_borrowing recordZeroRevenue 0 = Except.ok 0 := by
  constructor
  · have h := ((total_borrowing_formula sampleRecord 0 [sampleEntry] rfl).1
      sampleEntry rfl).1 (BS.mk (some 10) (some 15) (some 1)) 100 rfl (by rfl)
    exact h.trans (by with_unfolding_all rfl)
  · have h := ((total_borrowing_formula recordZeroRevenue 0
      [FinancialEntry.mk (some "STANDALONE")
        (some (LineItems.mk none (some (BS.mk (some 10) (some 15) none))))] rfl).1
      (FinancialEntry.mk (some "STANDALONE")
        (some (LineItems.mk none (some (BS.mk (some 10) (some 15) none))))) rfl).1
      (BS.mk (some 10) (some 15) none) 0 rfl (by rfl)
    exact h.trans (by with_unfolding_all rfl)

/-- Claim C7: there is a well-formed input on which `iscr` divides by zero
and raises: both sections present and `interestExpenses = -1` make the
denominator `interest_expenses + 1` zero, and the resulting
`ZeroDivisionError` is not caught by the `except KeyError:` handler. -/
theorem iscr_zero_division :
    iscr recordInterestMinusOne 0 = Except.error PyErr.zeroDivisionError := by
  with_unfolding_all rfl

/-- Claim C8: whenever `total_revenue` returns a value, the revenue flag is
GREEN exactly when that value is ≥ 50,000,000 and RED exactly when it is
below — the boundary is inclusive on the GREEN side. -/
theorem total_revenue_5cr_flag_threshold (data : FinRecord) (i : Nat) (v : ℚ)
    (h : total_revenue data i = Except.ok v) :
    (total_revenue_5cr_flag data i = Except.ok FLAGS.GREEN ↔ 50000000 ≤ v)
    ∧ (total_revenue_5cr_flag data i = Except.ok FLAGS.RED ↔ v < 50000000) := by
  have hflag := total_revenue_5cr_flag_of_ok data i v h
  by_cases hv : (50000000 : ℚ) ≤ v
  · rw [hflag, if_pos hv]
    simp [FLAGS.GREEN, FLAGS.RED, hv, not_lt.mpr hv]
  · rw [hflag, if_neg hv]
    simp [FLAGS.GREEN, FLAGS.RED, hv, not_le.mp hv]

/-- Claim C8, witness: revenue exactly 50,000,000 is GREEN and
49,999,999.99 is RED. -/
theorem total_revenue_5cr_flag_threshold_witness :
    total_revenue_5cr_flag record50M 0 = Except.ok FLAGS.GREEN
      ∧ total_revenue_5cr_flag recordJustUnder50M 0 = Except.ok FLAGS.RED := by
  constructor
  · exact (total_revenue_5cr_flag_threshold record50M 0 50000000 (by rfl)).1.mpr le_rfl
  · exact (total_revenue_5cr_flag_threshold recordJustUnder50M 0 (4999999999 / 100)
      (by rfl)).2.mpr (by norm_num)

/-- Claim C9: whenever `iscr` returns a value, the ISCR flag is GREEN
exactly when that value is ≥ 2 (boundary inclusive on the GREEN side) and
RED exactly when it is below; AMBER is never produced by this classifier. -/
theorem iscr_flag_threshold (data : FinRecord) (i : Nat) :
    (∀ v, iscr data i = Except.ok v →
      ((iscr_flag data i = Except.ok FLAGS.GREEN ↔ 2 ≤ v)
        ∧ (iscr_flag data i = Except.ok FLAGS.RED ↔ v < 2)))
    ∧ iscr_flag data i ≠ Except.ok FLAGS.AMBER := by
  constructor
  · intro v h
    have hflag := iscr_flag_of_ok data i v h
    by_cases hv : (2 : ℚ) ≤ v
    · rw [hflag, if_pos hv]
      simp [FLAGS.GREEN, FLAGS.RED, hv, not_lt.mpr hv]
    · rw [hflag, if_neg hv]
      simp [FLAGS.GREEN, FLAGS.RED, hv, not_le.mp hv]
  · intro h
    rcases iscr_flag_vals data i FLAGS.AMBER h with h' | h' <;>
      norm_num [FLAGS.AMBER, FLAGS.RED, FLAGS.GREEN] at h'

/-- Claim C9, witness: ISCR (3+1)/(1+1) = 2.0 is GREEN (boundary) and
(0+1)/(1+1) = 0.5 is RED. -/
theorem iscr_flag_threshold_witness :
    iscr_flag sampleRecord 0 = Except.ok FLAGS.GREEN
      ∧ iscr_flag recordLowIscr 0 = Except.ok FLAGS.RED := by
  constructor
  · exact ((iscr_flag_threshold sampleRecord 0).1 2
      (by with_unfolding_all rfl)).1.mpr le_rfl
  · exact ((iscr_flag_threshold recordLowIscr 0).1 (1 / 2)
      (by with_unfolding_all rfl)).2.mpr (by norm_num)

/-- Claim C10: whenever `total_borrowing` returns a value, the borrowing
flag is GREEN exactly when that value is ≤ 0.25 (boundary inclusive on the
GREEN side) and AMBER exactly when it is above; RED is never produced by
this classifier. -/
theorem borrowing_to_revenue_flag_threshold (data : FinRecord) (i : Nat) :
    (∀ v, total_borrowing data i = Except.ok v →
      ((borrowing_to_revenue_flag data i = Except.ok FLAGS.GREEN ↔ v ≤ 1 / 4)
        ∧ (borrowing_to_revenue_flag data i = Except.ok FLAGS.AMBER ↔ 1 / 4 < v)))
    ∧ borrowing_to_revenue_flag data i ≠ Except.ok FLAGS.RED := by
  constructor
  · intro v h
    have hflag := borrowing_to_revenue_flag_of_ok data i v h
    by_cases hv : v ≤ (1 : ℚ) / 4
    · rw [hflag, if_pos hv]
      refine ⟨⟨fun _ => hv, fun _ => rfl⟩,
        ⟨fun hcontra => ?_, fun hlt => absurd hv (not_le.mpr hlt)⟩⟩
      exact absurd hcontra (by simp [FLAGS.GREEN, FLAGS.AMBER])
    · rw [hflag, if_neg hv]
      refine ⟨⟨fun hcontra => ?_, fun hle => absurd hle hv⟩,
        ⟨fun _ => not_le.mp hv, fun _ => rfl⟩⟩
      exact absurd hcontra (by simp [FLAGS.GREEN, FLAGS.AMBER])
  · intro h
    rcases borrowing_to_revenue_flag_vals data i FLAGS.RED h with h' | h' <;>
      norm_num [FLAGS.RED, FLAGS.GREEN, FLAGS.AMBER] at h'

/-- Claim C10, witness: borrowings 10 + 15 over revenue 100 give exactly
0.25, GREEN (boundary); over revenue 99 the ratio 25/99 is AMBER. -/
theorem borrowing_to_revenue_flag_threshold_witness :
    borrowing_to_revenue_flag sampleRecord 0 = Except.ok FLAGS.GREEN
      ∧ borrowing_to_revenue_flag recordHighBorrowing 0 = Except.ok FLAGS.AMBER := by
  constructor
  · exact ((borrowing_to_revenue_flag_threshold sampleRecord 0).1 (1 / 4)
      (by with_unfolding_all rfl)).1.mpr le_rfl
  · exact ((borrowing_to_revenue_flag_threshold recordHighBorrowing 0).1 (25 / 99)
      (by with_unfolding_all rfl)).2.mpr (by norm_num)
